import Mathlib

/-!
Shallow embedding of `src/src/main.rs` (druid "Christmas Tree" widget).

Modelling conventions:
* `f64` values are embedded as `ℚ`; all arithmetic in the source is
  `+ - * / min` and comparisons, which are exact on the inputs considered.
* The implicit thread-local RNG is embedded as an indexed stream
  `rand : Nat → ℚ` of draws, consumed left to right in source order.
  `rng.gen::<f64>()` consumes one draw (assumed in `[0,1)` where needed);
  `rng.gen_range(lo..hi)` consumes one draw `r` and yields `lo + r*(hi-lo)`.
* `druid::Point`, `druid::Color`, `druid::Rect` become plain structures of
  rationals; `Color::rgb8` divides the byte channels by 255.
* `EventCtx` effects (`request_timer`, `request_paint`) are made explicit in
  the result of the `event` function; the fresh `TimerToken` returned by
  `request_timer` is a parameter.
-/

namespace ChristmasTree

/-- `druid::Point` with `f64` coordinates, embedded over `ℚ`. -/
structure Point where
  x : ℚ
  y : ℚ
  deriving Repr, DecidableEq

/-- `druid::Color`, kept as three channel values in `[0,1]`. -/
structure Color where
  r : ℚ
  g : ℚ
  b : ℚ
  deriving Repr, DecidableEq

/-- `Color::rgb` (float channels). -/
def Color.rgb (r g b : ℚ) : Color := ⟨r, g, b⟩

/-- `Color::rgb8` (byte channels, scaled to `[0,1]`). -/
def Color.rgb8 (r g b : ℕ) : Color := ⟨(r : ℚ) / 255, (g : ℚ) / 255, (b : ℚ) / 255⟩

/-- `Color::WHITE`. -/
def Color.WHITE : Color := ⟨1, 1, 1⟩

/-- `const BASE_WIDTH: f64 = 600.0`. -/
def BASE_WIDTH : ℚ := 600

/-- `const BASE_HEIGHT: f64 = 600.0`. -/
def BASE_HEIGHT : ℚ := 600

/-- `struct Light { position: Point, color: Color }`. -/
structure Light where
  position : Point
  color : Color
  deriving Repr, DecidableEq

/-- `struct Snowflake { position: Point, speed: f64 }`. -/
structure Snowflake where
  position : Point
  speed : ℚ
  deriving Repr, DecidableEq

/-- `struct ChristmasTreeWidget`; `TimerToken` and `Instant` are opaque,
embedded as naturals. -/
structure Widget where
  lights : List Light
  snowflakes : List Snowflake
  timer_id : ℕ
  last_update : ℕ
  deriving Repr, DecidableEq

/-- `rng.gen_range(lo..hi)`: one uniform draw `r ∈ [0,1)` mapped affinely
onto `[lo, hi)`. -/
def gen_range (r lo hi : ℚ) : ℚ := lo + r * (hi - lo)

/-- Body of one iteration of the loop in `generate_lights`: from the two
uniform draws `r1, r2` and the three colour draws, build the `Light`
(barycentric fold over the triangle `top`-`left`-`right`). -/
def genLight (r1 r2 cr cg cb : ℚ) : Light :=
  let top : Point := ⟨BASE_WIDTH / 2, 50⟩
  let left : Point := ⟨100, BASE_HEIGHT - 50⟩
  let right : Point := ⟨BASE_WIDTH - 100, BASE_HEIGHT - 50⟩
  let uv : ℚ × ℚ := if r1 + r2 > 1 then (1 - r1, 1 - r2) else (r1, r2)
  let x := top.x + uv.1 * (left.x - top.x) + uv.2 * (right.x - top.x)
  let y := top.y + uv.1 * (left.y - top.y) + uv.2 * (right.y - top.y)
  { position := ⟨x, y⟩, color := Color.rgb cr cg cb }

/-- `generate_lights`: 50 lights, each consuming five RNG draws
(`r1`, `r2`, then the three colour channels). -/
def generate_lights (rand : ℕ → ℚ) : List Light :=
  (List.range 50).map fun i =>
    genLight (rand (5 * i)) (rand (5 * i + 1))
      (rand (5 * i + 2)) (rand (5 * i + 3)) (rand (5 * i + 4))

/-- Body of one iteration of the loop in `generate_snowflakes`: draws for
`x`, `y` and `speed`, in that order. -/
def genSnowflake (rx ry rs : ℚ) : Snowflake :=
  { position := ⟨gen_range rx 0 BASE_WIDTH, gen_range ry (-100) 0⟩,
    speed := gen_range rs 1 3 }

/-- `generate_snowflakes`: 100 flakes, each consuming three RNG draws. -/
def generate_snowflakes (rand : ℕ → ℚ) : List Snowflake :=
  (List.range 100).map fun i =>
    genSnowflake (rand (3 * i)) (rand (3 * i + 1)) (rand (3 * i + 2))

/-- One light's update inside the `Event::Timer` arm: with the draw at
index `i` below `0.25`, reassign the colour from the next three draws
(consuming four draws); otherwise leave the light unchanged (consuming
one draw).  Returns the updated light and the next RNG index. -/
def tickLight (rand : ℕ → ℚ) (l : Light) (i : ℕ) : Light × ℕ :=
  if rand i < 1/4 then
    ({ l with color := Color.rgb (rand (i + 1)) (rand (i + 2)) (rand (i + 3)) }, i + 4)
  else
    (l, i + 1)

/-- The light loop of the `Event::Timer` arm, threading the RNG index. -/
def tickLights (rand : ℕ → ℚ) : List Light → ℕ → List Light × ℕ
  | [], i => ([], i)
  | l :: ls, i =>
    let p := tickLight rand l i
    let q := tickLights rand ls p.2
    (p.1 :: q.1, q.2)

/-- One snowflake's update inside the `Event::Timer` arm: add `speed` to
`position.y`; if the result exceeds `BASE_HEIGHT`, respawn by redrawing
`y` in `[-100,0)` then `x` in `[0,600)` (two draws, in that source
order). -/
def tickFlake (rand : ℕ → ℚ) (f : Snowflake) (i : ℕ) : Snowflake × ℕ :=
  let y := f.position.y + f.speed
  if y > BASE_HEIGHT then
    ({ f with position := ⟨gen_range (rand (i + 1)) 0 BASE_WIDTH,
                           gen_range (rand i) (-100) 0⟩ }, i + 2)
  else
    ({ f with position := ⟨f.position.x, y⟩ }, i)

/-- The snowflake loop of the `Event::Timer` arm, threading the RNG index. -/
def tickFlakes (rand : ℕ → ℚ) : List Snowflake → ℕ → List Snowflake × ℕ
  | [], i => ([], i)
  | f :: fs, i =>
    let p := tickFlake rand f i
    let q := tickFlakes rand fs p.2
    (p.1 :: q.1, q.2)

/-- The events the widget can receive: `WindowConnected`, `Timer(id)`, and
all remaining druid events collapsed into `Other` (the source handles them
with the wildcard arm `_ => ()`). -/
inductive Event where
  | WindowConnected
  | Timer (id : ℕ)
  | Other
  deriving Repr, DecidableEq

/-- Result of `Widget::event`: the widget after the call together with the
`EventCtx` effects it performed. -/
structure EventResult where
  widget : Widget
  paintRequested : Bool
  timerArmed : Bool
  deriving Repr, DecidableEq

/-- `Widget::event` for `ChristmasTreeWidget`.  `rand` is the tick's RNG
stream, `freshToken` the token a `ctx.request_timer` call would return,
`now` the current instant. -/
def event (w : Widget) (e : Event) (rand : ℕ → ℚ) (freshToken : ℕ) (now : ℕ) :
    EventResult :=
  match e with
  | .WindowConnected =>
    { widget := { w with timer_id := freshToken, last_update := now },
      paintRequested := false, timerArmed := true }
  | .Timer id =>
    if id = w.timer_id then
      let pl := tickLights rand w.lights 0
      let pf := tickFlakes rand w.snowflakes pl.2
      { widget := { w with lights := pl.1, snowflakes := pf.1,
                           timer_id := freshToken },
        paintRequested := true, timerArmed := true }
    else
      { widget := w, paintRequested := false, timerArmed := false }
  | .Other =>
    { widget := w, paintRequested := false, timerArmed := false }

/-- Iterate matching timer ticks: tick `n` fires `Event::Timer` with the
currently stored token, using RNG stream `rands n` and fresh token
`tokens n`. -/
def ticks (rands : ℕ → ℕ → ℚ) (tokens : ℕ → ℕ) : ℕ → Widget → Widget
  | 0, w => w
  | n + 1, w =>
    ticks rands tokens n
      (event w (Event.Timer w.timer_id) (rands n) (tokens n) 0).widget

/-- `druid::Rect` (axis-aligned, corner representation). -/
structure Rect where
  x0 : ℚ
  y0 : ℚ
  x1 : ℚ
  y1 : ℚ
  deriving Repr, DecidableEq

/-- `Rect::from_center_size`. -/
def Rect.from_center_size (c : Point) (w h : ℚ) : Rect :=
  ⟨c.x - w / 2, c.y - h / 2, c.x + w / 2, c.y + h / 2⟩

/-- The draw commands `paint` emits: filled rectangles and the filled
closed triangular `BezPath`. -/
inductive DrawCmd where
  | fillRect (r : Rect) (c : Color)
  | fillTriangle (p1 p2 p3 : Point) (c : Color)
  deriving Repr, DecidableEq

/-- Output of one `paint` call: the background fill, the derived transform
parameters, and the command sequence emitted inside the `with_save` scope
(authored in design space), in emission order. -/
structure PaintOutput where
  background : DrawCmd
  scale : ℚ
  offset_x : ℚ
  offset_y : ℚ
  inScope : List DrawCmd
  deriving Repr, DecidableEq

/-- `Widget::paint` for `ChristmasTreeWidget`, at viewport size
`width × height`.  Mirrors the `&mut self` receiver by returning the widget
alongside the emitted commands. -/
def paint (w : Widget) (width height : ℚ) : Widget × PaintOutput :=
  let sky_blue := Color.rgb8 135 206 235
  let scale := min (width / BASE_WIDTH) (height / BASE_HEIGHT)
  let offset_x := (width - BASE_WIDTH * scale) / 2
  let offset_y := (height - BASE_HEIGHT * scale) / 2
  let snowCmds := w.snowflakes.map fun f =>
    DrawCmd.fillRect (Rect.from_center_size f.position 4 4) Color.WHITE
  let trunk_color := Color.rgb8 139 69 19
  let trunkCmd := DrawCmd.fillRect
    (Rect.from_center_size ⟨BASE_WIDTH / 2, BASE_HEIGHT - 60⟩ 30 60) trunk_color
  let tree_color := Color.rgb8 0 100 0
  let treeCmd := DrawCmd.fillTriangle
    ⟨BASE_WIDTH / 2, 50⟩ ⟨100, BASE_HEIGHT - 50⟩ ⟨BASE_WIDTH - 100, BASE_HEIGHT - 50⟩
    tree_color
  let lightCmds := w.lights.map fun l =>
    DrawCmd.fillRect (Rect.from_center_size l.position 8 8) l.color
  (w,
   { background := DrawCmd.fillRect ⟨0, 0, width, height⟩ sky_blue,
     scale := scale, offset_x := offset_x, offset_y := offset_y,
     inScope := snowCmds ++ [trunkCmd, treeCmd] ++ lightCmds })

/-- Signed cross product `(b - a) × (c - a)`, for the edge-sign
containment test. -/
def cross (a b c : Point) : ℚ :=
  (b.x - a.x) * (c.y - a.y) - (b.y - a.y) * (c.x - a.x)

/-- Point-in-triangle via sign-of-cross-product against all three edges
(the triangle `(300,50)-(100,550)-(500,550)` is negatively oriented, so
membership is all three cross products nonpositive). -/
def inTriangle (t l r p : Point) : Prop :=
  cross t l p ≤ 0 ∧ cross l r p ≤ 0 ∧ cross r t p ≤ 0

instance (t l r p : Point) : Decidable (inTriangle t l r p) := by
  unfold inTriangle; infer_instance

/-- Relation between a snowflake before and after one tick: speed is
untouched; if the incremented `y` exceeds the floor, the flake lands in
the respawn box, otherwise it only moved down by `speed`. -/
def flakeStep (f f' : Snowflake) : Prop :=
  f'.speed = f.speed ∧
  (if f.position.y + f.speed > BASE_HEIGHT then
     -100 ≤ f'.position.y ∧ f'.position.y < 0 ∧
     0 ≤ f'.position.x ∧ f'.position.x < 600
   else
     f'.position.y = f.position.y + f.speed ∧ f'.position.x = f.position.x)

/-- The per-flake invariant maintained by ticking: `y` within
`[-100, BASE_HEIGHT]`, positive fall speed. -/
def flakeInv (f : Snowflake) : Prop :=
  -100 ≤ f.position.y ∧ f.position.y ≤ BASE_HEIGHT ∧ 0 < f.speed

/-- A stream of uniform draws: every value in `[0,1)`. -/
def UnitStream (rand : ℕ → ℚ) : Prop :=
  ∀ n, 0 ≤ rand n ∧ rand n < 1

/-! ## Theorems -/

theorem genLight_position_mem (r1 r2 cr cg cb : ℚ)
    (h1 : 0 ≤ r1) (h1' : r1 < 1) (h2 : 0 ≤ r2) (h2' : r2 < 1) :
    inTriangle ⟨300, 50⟩ ⟨100, 550⟩ ⟨500, 550⟩ (genLight r1 r2 cr cg cb).position := by
  simp only [genLight, inTriangle, cross, BASE_WIDTH, BASE_HEIGHT]
  split_ifs with h <;> refine ⟨?_, ?_, ?_⟩ <;> dsimp only <;> nlinarith

/-- C1: every light produced by `generate_lights`, from two independent
uniform draws `r1, r2 ∈ [0,1)` folded barycentrically, lies within or on the
boundary of the triangle with vertices (300,50), (100,550), (500,550)
(sign-of-cross-product test against all three edges). -/
theorem C1_generate_lights_in_triangle (rand : ℕ → ℚ) (hrand : UnitStream rand) :
    ∀ l ∈ generate_lights rand,
      inTriangle ⟨300, 50⟩ ⟨100, 550⟩ ⟨500, 550⟩ l.position := by
  intro l hl
  simp only [generate_lights, List.mem_map, List.mem_range] at hl
  obtain ⟨i, -, rfl⟩ := hl
  exact genLight_position_mem _ _ _ _ _
    (hrand _).1 (hrand _).2 (hrand _).1 (hrand _).2

/-- Witness for C1 at the constant stream `1/2`. -/
theorem C1_generate_lights_in_triangle_witness :
    (generate_lights fun _ => 1/2).Forall
      (fun l => inTriangle ⟨300, 50⟩ ⟨100, 550⟩ ⟨500, 550⟩ l.position) :=
  List.forall_iff_forall_mem.mpr
    (C1_generate_lights_in_triangle (fun _ => 1/2)
      (fun _ => ⟨by norm_num, by norm_num⟩))

/-- C2: `paint` derives `scale = min(width/600, height/600)` and the
centering offsets `(width - 600*scale)/2`, `(height - 600*scale)/2`; in
particular viewport (1200,600) gives scale 1, offsets (300,0), and viewport
(300,600) gives scale 1/2, offsets (0,150). -/
theorem C2_paint_transform (w : Widget) (width height : ℚ)
    (hw : 0 < width) (hh : 0 < height) :
    ((paint w width height).2.scale = min (width / 600) (height / 600) ∧
     (paint w width height).2.offset_x =
       (width - 600 * (paint w width height).2.scale) / 2 ∧
     (paint w width height).2.offset_y =
       (height - 600 * (paint w width height).2.scale) / 2) ∧
    ((paint w 1200 600).2.scale = 1 ∧
     (paint w 1200 600).2.offset_x = 300 ∧
     (paint w 1200 600).2.offset_y = 0) ∧
    ((paint w 300 600).2.scale = 1/2 ∧
     (paint w 300 600).2.offset_x = 0 ∧
     (paint w 300 600).2.offset_y = 150) := by
  refine ⟨⟨rfl, rfl, rfl⟩, ⟨?_, ?_, ?_⟩, ⟨?_, ?_, ?_⟩⟩ <;>
    simp [paint, BASE_WIDTH, BASE_HEIGHT] <;> norm_num [min_def]

/-- Witness for C2 at viewport (1200, 600). -/
theorem C2_paint_transform_witness :
    (0 : ℚ) < 1200 ∧ (0 : ℚ) < 600 ∧
    ((paint ⟨[], [], 0, 0⟩ 1200 600).2.scale = 1 ∧
     (paint ⟨[], [], 0, 0⟩ 1200 600).2.offset_x = 300 ∧
     (paint ⟨[], [], 0, 0⟩ 1200 600).2.offset_y = 0) :=
  ⟨by norm_num, by norm_num,
   (C2_paint_transform ⟨[], [], 0, 0⟩ 1200 600 (by norm_num) (by norm_num)).2.1⟩

theorem tickFlake_flakeStep (rand : ℕ → ℚ) (hrand : UnitStream rand)
    (f : Snowflake) (i : ℕ) :
    flakeStep f (tickFlake rand f i).1 := by
  have h1 := hrand i
  have h2 := hrand (i + 1)
  simp only [tickFlake, flakeStep, gen_range, BASE_HEIGHT, BASE_WIDTH]
  split_ifs with h
  · dsimp only
    refine ⟨rfl, ?_, ?_, ?_, ?_⟩ <;> nlinarith
  · exact ⟨rfl, rfl, rfl⟩

theorem tickFlakes_forall₂ (rand : ℕ → ℚ) (hrand : UnitStream rand) :
    ∀ (fs : List Snowflake) (i : ℕ),
      List.Forall₂ flakeStep fs (tickFlakes rand fs i).1
  | [], _ => List.Forall₂.nil
  | f :: fs, i => by
    simp only [tickFlakes]
    exact List.Forall₂.cons (tickFlake_flakeStep rand hrand f i)
      (tickFlakes_forall₂ rand hrand fs _)

/-- C3: on a matching timer tick every snowflake's `y` is incremented by its
fall speed; if the result exceeds 600 the flake is respawned with
`y ∈ [-100,0)` and `x ∈ [0,600)`, otherwise `x` is unchanged; the fall speed
is never modified.  A flake at `y = 599` with speed 2 lands at `601 > 600`
and is respawned into `[-100,0)`. -/
theorem C3_timer_tick_snowflakes (w : Widget) (rand : ℕ → ℚ) (tok now : ℕ)
    (hrand : UnitStream rand) :
    List.Forall₂ flakeStep w.snowflakes
      ((event w (Event.Timer w.timer_id) rand tok now).widget.snowflakes) ∧
    ((599 : ℚ) + 2 > 600 ∧
     -100 ≤ (tickFlake rand ⟨⟨0, 599⟩, 2⟩ 0).1.position.y ∧
     (tickFlake rand ⟨⟨0, 599⟩, 2⟩ 0).1.position.y < 0) := by
  constructor
  · simp only [event, if_pos rfl]
    exact tickFlakes_forall₂ rand hrand _ _
  · have h := tickFlake_flakeStep rand hrand ⟨⟨0, 599⟩, 2⟩ 0
    rw [flakeStep] at h
    norm_num [BASE_HEIGHT] at h
    exact ⟨by norm_num, h.2.1, h.2.2.1⟩

/-- Witness for C3: the respawn clause at the constant stream `1/2`. -/
theorem C3_timer_tick_snowflakes_witness :
    (599 : ℚ) + 2 > 600 ∧
    -100 ≤ (tickFlake (fun _ => 1/2) ⟨⟨0, 599⟩, 2⟩ 0).1.position.y ∧
    (tickFlake (fun _ => 1/2) ⟨⟨0, 599⟩, 2⟩ 0).1.position.y < 0 :=
  (C3_timer_tick_snowflakes ⟨[], [], 0, 0⟩ (fun _ => 1/2) 0 0
    (fun _ => ⟨by norm_num, by norm_num⟩)).2

theorem tickFlake_inv (rand : ℕ → ℚ) (hrand : UnitStream rand)
    (f : Snowflake) (i : ℕ) (hf : flakeInv f) :
    flakeInv (tickFlake rand f i).1 := by
  obtain ⟨hy1, hy2, hs⟩ := hf
  have h1 := hrand i
  rw [BASE_HEIGHT] at hy2
  simp only [tickFlake, flakeInv, gen_range, BASE_HEIGHT, BASE_WIDTH]
  split_ifs with h
  · dsimp only
    refine ⟨?_, ?_, hs⟩ <;> nlinarith
  · dsimp only
    rw [not_lt] at h
    exact ⟨by nlinarith, h, hs⟩

theorem tickFlakes_inv (rand : ℕ → ℚ) (hrand : UnitStream rand) :
    ∀ (fs : List Snowflake) (i : ℕ), (∀ f ∈ fs, flakeInv f) →
      ∀ f ∈ (tickFlakes rand fs i).1, flakeInv f
  | [], _, _ => by simp [tickFlakes]
  | f :: fs, i, hfs => by
    simp only [tickFlakes, List.mem_cons]
    rintro g (rfl | hg)
    · exact tickFlake_inv rand hrand f i (hfs f (List.mem_cons_self f fs))
    · exact tickFlakes_inv rand hrand fs _
        (fun x hx => hfs x (List.mem_cons_of_mem f hx)) g hg

theorem ticks_inv (rands : ℕ → ℕ → ℚ) (tokens : ℕ → ℕ)
    (hr : ∀ m, UnitStream (rands m)) :
    ∀ (n : ℕ) (w : Widget), (∀ f ∈ w.snowflakes, flakeInv f) →
      ∀ f ∈ (ticks rands tokens n w).snowflakes, flakeInv f
  | 0, _, hw => hw
  | n + 1, w, hw => by
    rw [ticks]
    refine ticks_inv rands tokens hr n _ ?_
    simp only [event, if_pos rfl]
    exact tickFlakes_inv (rands n) (hr n) _ _ hw

theorem generate_snowflakes_inv (rand : ℕ → ℚ) (hrand : UnitStream rand) :
    ∀ f ∈ generate_snowflakes rand, flakeInv f := by
  intro f hf
  simp only [generate_snowflakes, List.mem_map, List.mem_range] at hf
  obtain ⟨i, -, rfl⟩ := hf
  have h1 := hrand (3 * i + 1)
  have h2 := hrand (3 * i + 2)
  simp only [genSnowflake, flakeInv, gen_range, BASE_HEIGHT, BASE_WIDTH]
  refine ⟨?_, ?_, ?_⟩ <;> nlinarith

/-- C4: starting from freshly generated snowflakes, after any number of
matching timer ticks every flake satisfies `-100 ≤ y ≤ 600`; and immediately
after a respawn (incremented `y` above 600) a flake satisfies
`-100 ≤ y < 0` and `0 ≤ x < 600`. -/
theorem C4_snowflake_bounds (rand0 : ℕ → ℚ) (rands : ℕ → ℕ → ℚ)
    (tokens : ℕ → ℕ) (lights0 : List Light) (tid lu n : ℕ)
    (h0 : UnitStream rand0) (hr : ∀ m, UnitStream (rands m)) :
    (∀ f ∈ (ticks rands tokens n
        ⟨lights0, generate_snowflakes rand0, tid, lu⟩).snowflakes,
      -100 ≤ f.position.y ∧ f.position.y ≤ 600) ∧
    (∀ (rand : ℕ → ℚ), UnitStream rand → ∀ (f : Snowflake) (i : ℕ),
      f.position.y + f.speed > 600 →
        -100 ≤ (tickFlake rand f i).1.position.y ∧
        (tickFlake rand f i).1.position.y < 0 ∧
        0 ≤ (tickFlake rand f i).1.position.x ∧
        (tickFlake rand f i).1.position.x < 600) := by
  constructor
  · intro f hf
    have h := ticks_inv rands tokens hr n
      ⟨lights0, generate_snowflakes rand0, tid, lu⟩
      (generate_snowflakes_inv rand0 h0) f hf
    rw [flakeInv, BASE_HEIGHT] at h
    exact ⟨h.1, h.2.1⟩
  · intro rand hrand f i hy
    have h := tickFlake_flakeStep rand hrand f i
    rw [flakeStep, if_pos (by rw [BASE_HEIGHT]; exact hy)] at h
    exact ⟨h.2.1, h.2.2.1, h.2.2.2.1, h.2.2.2.2⟩

/-- Witness for C4: a respawn from `y = 600`, speed 3, with the constant
stream `0`. -/
theorem C4_snowflake_bounds_witness :
    -100 ≤ (tickFlake (fun _ => 0) ⟨⟨5, 600⟩, 3⟩ 0).1.position.y ∧
    (tickFlake (fun _ => 0) ⟨⟨5, 600⟩, 3⟩ 0).1.position.y < 0 ∧
    0 ≤ (tickFlake (fun _ => 0) ⟨⟨5, 600⟩, 3⟩ 0).1.position.x ∧
    (tickFlake (fun _ => 0) ⟨⟨5, 600⟩, 3⟩ 0).1.position.x < 600 :=
  (C4_snowflake_bounds (fun _ => 0) (fun _ _ => 0) (fun _ => 0) [] 0 0 0
      (fun _ => ⟨le_refl 0, by norm_num⟩)
      (fun _ _ => ⟨le_refl 0, by norm_num⟩)).2
    (fun _ => 0) (fun _ => ⟨le_refl 0, by norm_num⟩) ⟨⟨5, 600⟩, 3⟩ 0
    (by norm_num)

theorem tickLights_length (rand : ℕ → ℚ) :
    ∀ (ls : List Light) (i : ℕ), (tickLights rand ls i).1.length = ls.length
  | [], _ => rfl
  | l :: ls, i => by
    simp only [tickLights, List.length_cons]
    rw [tickLights_length rand ls]

theorem tickFlakes_length (rand : ℕ → ℚ) :
    ∀ (fs : List Snowflake) (i : ℕ), (tickFlakes rand fs i).1.length = fs.length
  | [], _ => rfl
  | f :: fs, i => by
    simp only [tickFlakes, List.length_cons]
    rw [tickFlakes_length rand fs]

theorem event_lengths (w : Widget) (e : Event) (rand : ℕ → ℚ) (tok now : ℕ) :
    (event w e rand tok now).widget.lights.length = w.lights.length ∧
    (event w e rand tok now).widget.snowflakes.length = w.snowflakes.length := by
  cases e with
  | WindowConnected => exact ⟨rfl, rfl⟩
  | Timer id =>
    simp only [event]
    split_ifs with h
    · exact ⟨tickLights_length rand w.lights 0, tickFlakes_length rand w.snowflakes _⟩
    · exact ⟨rfl, rfl⟩
  | Other => exact ⟨rfl, rfl⟩

theorem ticks_lengths (rands : ℕ → ℕ → ℚ) (tokens : ℕ → ℕ) :
    ∀ (n : ℕ) (w : Widget),
      (ticks rands tokens n w).lights.length = w.lights.length ∧
      (ticks rands tokens n w).snowflakes.length = w.snowflakes.length
  | 0, _ => ⟨rfl, rfl⟩
  | n + 1, w => by
    rw [ticks]
    have h1 := ticks_lengths rands tokens n
      (event w (Event.Timer w.timer_id) (rands n) (tokens n) 0).widget
    have h2 := event_lengths w (Event.Timer w.timer_id) (rands n) (tokens n) 0
    exact ⟨h1.1.trans h2.1, h1.2.trans h2.2⟩

/-- C5: exactly 50 lights and 100 snowflakes at creation, and every event
(ticks included) preserves both counts, for any number of tick
iterations. -/
theorem C5_fixed_populations (rand0 rand1 : ℕ → ℚ) (rands : ℕ → ℕ → ℚ)
    (tokens : ℕ → ℕ) (tid lu n : ℕ) :
    (generate_lights rand0).length = 50 ∧
    (generate_snowflakes rand1).length = 100 ∧
    (ticks rands tokens n
      ⟨generate_lights rand0, generate_snowflakes rand1, tid, lu⟩).lights.length = 50 ∧
    (ticks rands tokens n
      ⟨generate_lights rand0, generate_snowflakes rand1, tid, lu⟩).snowflakes.length = 100 ∧
    (∀ (w : Widget) (e : Event) (rand : ℕ → ℚ) (tok now : ℕ),
      (event w e rand tok now).widget.lights.length = w.lights.length ∧
      (event w e rand tok now).widget.snowflakes.length = w.snowflakes.length) := by
  have hl : (generate_lights rand0).length = 50 := by
    simp [generate_lights]
  have hs : (generate_snowflakes rand1).length = 100 := by
    simp [generate_snowflakes]
  have ht := ticks_lengths rands tokens n
    ⟨generate_lights rand0, generate_snowflakes rand1, tid, lu⟩
  exact ⟨hl, hs, ht.1.trans hl, ht.2.trans hs,
    fun w e rand tok now => event_lengths w e rand tok now⟩

theorem tickLight_position (rand : ℕ → ℚ) (l : Light) (i : ℕ) :
    (tickLight rand l i).1.position = l.position := by
  simp only [tickLight]
  split_ifs <;> rfl

theorem tickLights_positions (rand : ℕ → ℚ) :
    ∀ (ls : List Light) (i : ℕ),
      List.Forall₂ (fun l l' => l'.position = l.position) ls (tickLights rand ls i).1
  | [], _ => List.Forall₂.nil
  | l :: ls, i => by
    simp only [tickLights]
    exact List.Forall₂.cons (tickLight_position rand l i)
      (tickLights_positions rand ls _)

/-- C6: on a tick each light's colour is reassigned to a fresh RGB triple
exactly when the light's own uniform draw is below 0.25, and otherwise the
light is untouched; a tick never modifies any light's position. -/
theorem C6_timer_tick_lights (rand : ℕ → ℚ) :
    (∀ (l : Light) (i : ℕ),
      (tickLight rand l i).1.position = l.position ∧
      (rand i < 1/4 →
        (tickLight rand l i).1.color =
          Color.rgb (rand (i + 1)) (rand (i + 2)) (rand (i + 3))) ∧
      (¬ rand i < 1/4 → (tickLight rand l i).1 = l)) ∧
    (∀ (w : Widget) (tok now : ℕ),
      List.Forall₂ (fun l l' => l'.position = l.position) w.lights
        ((event w (Event.Timer w.timer_id) rand tok now).widget.lights)) := by
  constructor
  · intro l i
    refine ⟨tickLight_position rand l i, fun h => ?_, fun h => ?_⟩
    · rw [tickLight, if_pos h]
    · rw [tickLight, if_neg h]
  · intro w tok now
    simp only [event, if_pos rfl]
    exact tickLights_positions rand w.lights 0

/-- Witness for C6: the draw 0 is below 0.25, so the colour is reassigned
from the following (constant-zero) draws. -/
theorem C6_timer_tick_lights_witness :
    (tickLight (fun _ => 0) ⟨⟨1, 2⟩, ⟨1, 1, 1⟩⟩ 0).1.color = Color.rgb 0 0 0 :=
  ((C6_timer_tick_lights (fun _ => 0)).1 ⟨⟨1, 2⟩, ⟨1, 1, 1⟩⟩ 0).2.1 (by norm_num)

/-- C7: inside the scoped transform `paint` emits, in order: every snowflake
as a white 4×4 filled square, the trunk as a brown filled rectangle centred
at (300,540) of size 30×60, the tree silhouette as a filled closed triangle
(300,50)-(100,550)-(500,550), then every light as an 8×8 filled square in
the light's colour — so lights are drawn last. -/
theorem C7_paint_draw_order (w : Widget) (width height : ℚ) :
    (paint w width height).2.inScope =
      (w.snowflakes.map fun f =>
        DrawCmd.fillRect (Rect.from_center_size f.position 4 4) Color.WHITE)
      ++ [DrawCmd.fillRect (Rect.from_center_size ⟨300, 540⟩ 30 60)
            (Color.rgb8 139 69 19),
          DrawCmd.fillTriangle ⟨300, 50⟩ ⟨100, 550⟩ ⟨500, 550⟩
            (Color.rgb8 0 100 0)]
      ++ (w.lights.map fun l =>
        DrawCmd.fillRect (Rect.from_center_size l.position 8 8) l.color) := by
  simp only [paint, BASE_WIDTH, BASE_HEIGHT]
  norm_num

/-- C8: `paint` is deterministic and read-only: a second invocation on the
state left by the first, with the same viewport, emits the identical draw
output (background, transform and scoped command sequence), and the widget
state after both calls is the original one. -/
theorem C8_paint_deterministic_readonly (w : Widget) (width height : ℚ) :
    (paint w width height).1 = w ∧
    (paint ((paint w width height).1) width height).2 =
      (paint w width height).2 ∧
    (paint ((paint w width height).1) width height).1 = w :=
  ⟨rfl, rfl, rfl⟩

/-- C9: a timer event whose identifier differs from the stored one leaves
the widget untouched and performs no effect (no repaint, no re-arm); a
matching identifier runs the tick (lights and snowflakes updated, RNG
shared in that order), stores the fresh token, requests a repaint and
re-arms, leaving `last_update` alone. -/
theorem C9_stale_timer_ignored (w : Widget) (id : ℕ) (rand : ℕ → ℚ)
    (tok now : ℕ) :
    (id ≠ w.timer_id →
      event w (Event.Timer id) rand tok now =
        ⟨w, false, false⟩) ∧
    (id = w.timer_id →
      (event w (Event.Timer id) rand tok now).paintRequested = true ∧
      (event w (Event.Timer id) rand tok now).timerArmed = true ∧
      (event w (Event.Timer id) rand tok now).widget.timer_id = tok ∧
      (event w (Event.Timer id) rand tok now).widget.lights =
        (tickLights rand w.lights 0).1 ∧
      (event w (Event.Timer id) rand tok now).widget.snowflakes =
        (tickFlakes rand w.snowflakes (tickLights rand w.lights 0).2).1 ∧
      (event w (Event.Timer id) rand tok now).widget.last_update =
        w.last_update) := by
  constructor
  · intro h
    rw [event.eq_def]
    simp only [if_neg h]
  · intro h
    rw [event.eq_def]
    simp only [if_pos h]
    refine ⟨?_, ?_, ?_, ?_, ?_, ?_⟩ <;> first | rfl | trivial

/-- Witness for C9: stale token 1 against stored token 0 is a no-op. -/
theorem C9_stale_timer_ignored_witness :
    event ⟨[], [], 0, 0⟩ (Event.Timer 1) (fun _ => 0) 7 9 =
      ⟨⟨[], [], 0, 0⟩, false, false⟩ :=
  (C9_stale_timer_ignored ⟨[], [], 0, 0⟩ 1 (fun _ => 0) 7 9).1 (by norm_num)

/-- C10: every event other than `WindowConnected` and a matching `Timer`
leaves the whole widget state (lights, snowflakes, `timer_id`,
`last_update`) unchanged and performs no context effect. -/
theorem C10_default_branch_frame (w : Widget) (e : Event) (rand : ℕ → ℚ)
    (tok now : ℕ)
    (h : e = Event.Other ∨ ∃ id, e = Event.Timer id ∧ id ≠ w.timer_id) :
    (event w e rand tok now).widget = w ∧
    (event w e rand tok now).paintRequested = false ∧
    (event w e rand tok now).timerArmed = false := by
  rcases h with rfl | ⟨id, rfl, hid⟩
  · exact ⟨rfl, rfl, rfl⟩
  · rw [event.eq_def]
    simp only [if_neg hid]
    refine ⟨?_, ?_, ?_⟩ <;> first | rfl | trivial

/-- Witness for C10: a non-timer, non-connect event on a concrete widget. -/
theorem C10_default_branch_frame_witness :
    (event ⟨[], [], 3, 4⟩ Event.Other (fun _ => 0) 7 9).widget =
      (⟨[], [], 3, 4⟩ : Widget) ∧
    (event ⟨[], [], 3, 4⟩ Event.Other (fun _ => 0) 7 9).paintRequested = false ∧
    (event ⟨[], [], 3, 4⟩ Event.Other (fun _ => 0) 7 9).timerArmed = false :=
  C10_default_branch_frame ⟨[], [], 3, 4⟩ Event.Other (fun _ => 0) 7 9
    (Or.inl rfl)

end ChristmasTree
